import Mathlib

/-!
Shallow embedding of the agentx repository (sachaarbonel/agentx), covering
the run controller (`Agent::run_goal`, src/agent.rs) and the CUA-backed
reasoning state machine (`CuaReasoner::think` / `CuaReasoner::success`,
src/agent.rs) together with the service-reply parsing layer
(`CuaClient::parse_output` / `decode_action` / `map_cua_action`,
src/cua.rs and src/agent.rs).

External effects (HTTP transport, the browser, the memory store, the
policy engine, wall-clock time) are represented by explicit oracle values:
each remote or fallible call the Rust code makes corresponds to one oracle
field consumed at the same program point.  JSON numbers are modelled as
integers (the fields the code reads are all read through `as_i64`).
-/

namespace Agentx

-- ===================== Core data model (src/agent.rs) =====================

/-- `Locator` from src/agent.rs.  Coordinates are `i32` in Rust, modelled as `Int`. -/
inductive Locator where
  | Css (selector : String)
  | XPath (expr : String)
  | Text (pattern : String)
  | Id (id : String)
  | Aria (role : Option String) (name : Option String)
  | Coordinates (x : Int) (y : Int)
deriving DecidableEq, Repr

/-- `Action` from src/agent.rs. -/
inductive Action where
  | Click (target : Locator)
  | Type (text : String) (into : Locator)
  | Key (combo : String)
  | Hover (target : Locator)
  | Scroll (target : Option Locator) (dx : Int) (dy : Int)
  | Drag (from_ : Locator) (to_ : Locator)
  | NavGoto (url : String)
  | Submit (target : Locator)
  | FileUpload (target : Locator) (path : String)
  | ClipboardRead
  | ClipboardWrite (data : String)
deriving DecidableEq, Repr

/-- `Snapshot` from src/agent.rs (`captured_at_ms : u128` modelled as `Nat`). -/
structure Snapshot where
  id : String
  url : Option String
  title : Option String
  image_base64 : Option String
  dom_summary : Option String
  captured_at_ms : Nat
deriving DecidableEq, Repr

/-- `ActionResult` from src/agent.rs. -/
structure ActionResult where
  snapshot : Snapshot
  changed : Bool
  message : Option String
deriving DecidableEq, Repr

/-- `Goal` from src/agent.rs (`timeout_ms : Option<u128>` modelled as `Option Nat`). -/
structure Goal where
  task : String
  constraints : List String
  success_criteria : List String
  timeout_ms : Option Nat
deriving DecidableEq, Repr

/-- `Thought` from src/agent.rs. -/
structure Thought where
  plan : String
  action : Option Action
  rationale : Option String
deriving DecidableEq, Repr

/-- `Scope` from src/agent.rs. -/
inductive Scope where
  | BrowserNavigate
  | ClipboardRead
  | ClipboardWrite
  | FileAccess
  | Network
deriving DecidableEq, Repr

/-- `Approval` from src/agent.rs. -/
structure Approval where
  granted : Bool
  scope : Option Scope
  reason : Option String
deriving DecidableEq, Repr

/-- `AgentError` from src/agent.rs. -/
inductive AgentError where
  | Computer (msg : String)
  | Reasoner (msg : String)
  | Denied (scope : Scope)
  | Timeout (msg : String)
  | Memory (msg : String)
  | Other (msg : String)
deriving DecidableEq, Repr

/-- `RunStatus` from src/agent.rs. -/
inductive RunStatus where
  | Success
  | Timeout
  | Error
deriving DecidableEq, Repr

/-- `RunMetrics` from src/agent.rs (`RunMetrics::default()` is all zeroes / false). -/
structure RunMetrics where
  steps : Nat
  time_ms : Nat
  success : Bool
deriving DecidableEq, Repr

/-- `StepLog` from src/agent.rs. -/
structure StepLog where
  step : Nat
  plan : String
  action : Option Action
  approval : Option Approval
  result_hint : String
  snapshot_id : Option String
  error : Option String
  timestamp_ms : Nat
deriving DecidableEq, Repr

/-- `RunReport` from src/agent.rs. -/
structure RunReport where
  run_id : String
  goal : Goal
  status : RunStatus
  metrics : RunMetrics
  steps : List StepLog
  last_snapshot : Option Snapshot
  error : Option String
deriving DecidableEq, Repr

/-- `AgentConfig` from src/agent.rs (`step_timeout : Duration` modelled in ms). -/
structure AgentConfig where
  max_steps : Nat
  step_timeout_ms : Nat
  scopes : List Scope
deriving DecidableEq, Repr

/-- The derived `Debug` rendering of `Scope`, as used by
`AgentError::Denied`'s thiserror format string `policy denied: {0:?}`. -/
def Scope.debugRepr : Scope → String
  | .BrowserNavigate => "BrowserNavigate"
  | .ClipboardRead => "ClipboardRead"
  | .ClipboardWrite => "ClipboardWrite"
  | .FileAccess => "FileAccess"
  | .Network => "Network"

/-- The `Display` rendering of `AgentError` given by its thiserror
`#[error(...)]` attributes in src/agent.rs. -/
def AgentError.display : AgentError → String
  | .Computer s => "computer error: " ++ s
  | .Reasoner s => "reasoner error: " ++ s
  | .Denied sc => "policy denied: " ++ sc.debugRepr
  | .Timeout s => "timeout: " ++ s
  | .Memory s => "memory error: " ++ s
  | .Other s => "other error: " ++ s

-- ===================== JSON model (serde_json::Value) =====================

/-- Minimal model of `serde_json::Value`.  Numbers are modelled as integers:
every numeric field the embedded code reads goes through `as_i64`. -/
inductive Json where
  | null
  | bool (b : Bool)
  | num (n : Int)
  | str (s : String)
  | arr (elems : List Json)
  | obj (fields : List (String × Json))
deriving Repr

/-- Object field lookup (`Value::get` on an object; `None` on other variants). -/
def Json.get : Json → String → Option Json
  | .obj fields, key => go fields key
  | _, _ => none
where
  go : List (String × Json) → String → Option Json
    | [], _ => none
    | (k, v) :: rest, key => if k == key then some v else go rest key

/-- `Value::as_str`. -/
def Json.asStr : Json → Option String
  | .str s => some s
  | _ => none

/-- `Value::as_bool`. -/
def Json.asBool : Json → Option Bool
  | .bool b => some b
  | _ => none

/-- `Value::as_i64`: the number must fit in a signed 64-bit integer. -/
def Json.asI64 : Json → Option Int
  | .num n => if -(2 ^ 63) ≤ n ∧ n < 2 ^ 63 then some n else none
  | _ => none

/-- `Value::as_array`. -/
def Json.asArr : Json → Option (List Json)
  | .arr xs => some xs
  | _ => none

/-- Base-10 digit accumulation; `none` on any non-digit character. -/
def digitsToNat : List Char → Nat → Option Nat
  | [], acc => some acc
  | c :: rest, acc =>
      if c.isDigit then digitsToNat rest (10 * acc + (c.toNat - 48)) else none

/-- serde_json pointer index parsing: a canonical base-10 index — no
leading `+`, no leading zero except `0` itself, digits only.  (Rust
additionally fails on u64 overflow; indices that large never address a
real array element here.) -/
def parseIndex (s : String) : Option Nat :=
  match s.toList with
  | [] => none
  | '+' :: _ => none
  | ['0'] => some 0
  | '0' :: _ :: _ => none
  | cs => digitsToNat cs 0

/-- JSON-pointer reference token applied to one value: object key lookup,
or array indexing when the token is a canonical base-10 index. -/
def Json.ptrStep (j : Json) (tok : String) : Option Json :=
  match j with
  | .obj _ => j.get tok
  | .arr xs =>
      match parseIndex tok with
      | some i => xs.get? i
      | none => none
  | _ => none

/-- `Value::pointer("/content/0/text")` followed by `as_str`, as used for
message items in `CuaClient::parse_output`. -/
def Json.messageText (o : Json) : Option String :=
  ((o.ptrStep "content").bind (·.ptrStep "0")).bind (·.ptrStep "text") |>.bind Json.asStr

-- ===================== CUA wire types (src/cua.rs) =====================

/-- `CuaAction` from src/cua.rs (i64 fields modelled as `Int`). -/
inductive CuaAction where
  | Screenshot
  | Click (x : Int) (y : Int) (button : Option String)
  | DoubleClick (x : Int) (y : Int)
  | Move (x : Int) (y : Int)
  | Scroll (dx : Int) (dy : Int)
  | Type (text : String)
  | Keypress (key : String)
  | DragPath (points : List (Int × Int))
  | WaitMs (ms : Int)
  | Unknown (kind : String)
deriving DecidableEq, Repr

/-- `CuaOutput` from src/cua.rs.  `ResponseId` is a newtype over `String`
and is modelled as a bare `String`; safety checks are raw JSON values. -/
inductive CuaOutput where
  | Message (text : String)
  | ComputerCall (call_id : String) (act : CuaAction) (requires_screenshot : Bool)
      (response_id : String) (safety_checks : List Json)
  | Done (response_id : String)
deriving Repr

/-- `CuaClient::decode_action` from src/cua.rs.  The Rust function always
returns `Ok`, so it is modelled as a total function. -/
def decode_action (v : Json) : CuaAction :=
  let kind := ((v.get "type").bind Json.asStr).getD "unknown"
  if kind == "screenshot" then .Screenshot
  else if kind == "click" then
    .Click (((v.get "x").bind Json.asI64).getD 0) (((v.get "y").bind Json.asI64).getD 0)
      ((v.get "button").bind Json.asStr)
  else if kind == "double_click" then
    .DoubleClick (((v.get "x").bind Json.asI64).getD 0) (((v.get "y").bind Json.asI64).getD 0)
  else if kind == "move" then
    .Move (((v.get "x").bind Json.asI64).getD 0) (((v.get "y").bind Json.asI64).getD 0)
  else if kind == "scroll" then
    .Scroll ((((v.get "x").orElse fun _ => v.get "dx").bind Json.asI64).getD 0)
      ((((v.get "y").orElse fun _ => v.get "dy").bind Json.asI64).getD 0)
  else if kind == "type" then
    .Type (((v.get "text").bind Json.asStr).getD "")
  else if kind == "keypress" then
    .Keypress (((v.get "key").bind Json.asStr).getD "")
  else if kind == "drag" ∨ kind == "drag_path" then
    .DragPath ((((v.get "points").bind Json.asArr).getD []).filterMap fun p =>
      (p.get "x").bind Json.asI64 |>.bind fun x =>
        (p.get "y").bind Json.asI64 |>.bind fun y => some (x, y))
  else if kind == "wait" ∨ kind == "wait_ms" then
    .WaitMs (((v.get "ms").bind Json.asI64).getD 300)
  else .Unknown kind

/-- The `action` field of a `computer_call` output item: decoded when present,
`Unknown "unknown"` otherwise (`.map(decode_action).transpose()?.unwrap_or(...)`,
where `decode_action` never errors). -/
def computerCallAction (o : Json) : CuaAction :=
  match o.get "action" with
  | some a => decode_action a
  | none => .Unknown "unknown"

/-- The scan over the `output` array in `CuaClient::parse_output`:
the first `computer_call` or `done` item wins; the last `message` item with
extractable text is remembered; an empty scan with no remembered message
falls back to an explicit `Done`. -/
def parseLoop (response_id : String) :
    List Json → Option String → Except String CuaOutput
  | [], pending =>
      match pending with
      | some text => .ok (.Message text)
      | none => .ok (.Done response_id)
  | o :: rest, pending =>
      match (o.get "type").bind Json.asStr with
      | none => parseLoop response_id rest pending
      | some t =>
          if t == "computer_call" then
            .ok (.ComputerCall
              (((o.get "call_id").bind Json.asStr).getD "")
              (computerCallAction o)
              (((o.get "requires_screenshot").bind Json.asBool).getD true)
              response_id
              (((o.get "pending_safety_checks").bind Json.asArr).getD []))
          else if t == "message" then
            parseLoop response_id rest
              (match o.messageText with
               | some text => some text
               | none => pending)
          else if t == "done" then .ok (.Done response_id)
          else parseLoop response_id rest pending

/-- `CuaClient::parse_output` from src/cua.rs. -/
def parse_output (v : Json) : Except String CuaOutput :=
  match (v.get "id").bind Json.asStr with
  | none => .error "missing id"
  | some response_id =>
      parseLoop response_id (((v.get "output").bind Json.asArr).getD []) none

-- ===================== CUA-backed reasoner (src/agent.rs) =====================

/-- `CuaState` from src/agent.rs. -/
structure CuaState where
  previous : Option String
  pending_call_id : Option String
  pending_safety_checks : List Json
  awaiting_screenshot : Bool
  done_message : Option String
deriving Repr

/-- `CuaState::default()`. -/
def CuaState.init : CuaState :=
  { previous := none, pending_call_id := none, pending_safety_checks := [],
    awaiting_screenshot := false, done_message := none }

/-- `CuaReasonerConfig` from src/agent.rs. -/
structure CuaReasonerConfig where
  stop_on_message : Bool
  auto_confirm_text : Option String
deriving Repr

/-- `CuaReasonerConfig::default()`. -/
def CuaReasonerConfig.init : CuaReasonerConfig :=
  { stop_on_message := true, auto_confirm_text := none }

/-- Wrapping conversion `i64 as i32` (two's-complement truncation),
used when `map_cua_action` narrows coordinates. -/
def i64AsI32 (x : Int) : Int :=
  (x + 2 ^ 31) % 2 ^ 32 - 2 ^ 31

/-- `CuaReasoner::map_cua_action` from src/agent.rs. -/
def map_cua_action : CuaAction → Option Action
  | .Click x y _ => some (.Click (.Coordinates (i64AsI32 x) (i64AsI32 y)))
  | .DoubleClick x y => some (.Click (.Coordinates (i64AsI32 x) (i64AsI32 y)))
  | .Move x y => some (.Hover (.Coordinates (i64AsI32 x) (i64AsI32 y)))
  | .Scroll dx dy => some (.Scroll none (i64AsI32 dx) (i64AsI32 dy))
  | .Type text => some (.Type text (.Css "*"))
  | .Keypress key => some (.Key key)
  | .WaitMs _ => none
  | .DragPath _ => none
  | .Screenshot => none
  | .Unknown _ => none

/-- `CuaReasoner::think` from src/agent.rs (the body of the `Reasoner`
impl), as a state-passing function.  `reply` stands for the outcome of the
single remote call the executed branch performs (`send_computer_output`
when a screenshot is owed, `turn` otherwise); `.error` is a transport or
parse failure, which the Rust code maps to `AgentError::Reasoner`.
On every error return the Rust code has not yet touched the session, so
the state component is returned unchanged there.  In both `Message` arms
the Rust statement `st.previous = st.previous.take()` removes the value
and immediately writes it back, leaving `previous` unchanged despite the
adjacent `end thread on message` comment. -/
def think (cfg : CuaReasonerConfig) (st : CuaState) (snapshot : Snapshot)
    (reply : Except String CuaOutput) : Except AgentError Thought × CuaState :=
  if st.awaiting_screenshot then
    match snapshot.image_base64 with
    | none => (.error (.Reasoner "missing snapshot image"), st)
    | some _ =>
        match st.pending_call_id with
        | none => (.error (.Reasoner "missing call_id"), st)
        | some _ =>
            match reply with
            | .error e => (.error (.Reasoner e), st)
            | .ok (.Message text) =>
                (.ok { plan := text, action := none, rationale := none },
                 { st with
                     previous := st.previous,
                     pending_call_id := none,
                     pending_safety_checks := [],
                     awaiting_screenshot := false,
                     done_message :=
                       if cfg.stop_on_message then some text else st.done_message })
            | .ok (.ComputerCall call_id act requires_screenshot response_id safety_checks) =>
                (.ok { plan := "", action := map_cua_action act, rationale := none },
                 { st with
                     previous := some response_id,
                     pending_call_id := some call_id,
                     pending_safety_checks := safety_checks,
                     awaiting_screenshot := requires_screenshot })
            | .ok (.Done response_id) =>
                (.ok { plan := "done", action := none, rationale := none },
                 { st with
                     previous := some response_id,
                     pending_call_id := none,
                     pending_safety_checks := [],
                     awaiting_screenshot := false,
                     done_message := some "done" })
  else
    match reply with
    | .error e => (.error (.Reasoner e), st)
    | .ok (.Message text) =>
        (.ok { plan := text, action := none, rationale := none },
         { st with
             previous := st.previous,
             done_message :=
               if cfg.stop_on_message then some text else st.done_message })
    | .ok (.ComputerCall call_id act requires_screenshot response_id safety_checks) =>
        (.ok { plan := "", action := map_cua_action act, rationale := none },
         { st with
             previous := some response_id,
             pending_call_id := some call_id,
             pending_safety_checks := safety_checks,
             awaiting_screenshot := requires_screenshot })
    | .ok (.Done response_id) =>
        (.ok { plan := "done", action := none, rationale := none },
         { st with previous := some response_id, done_message := some "done" })

/-- `CuaReasoner::success` from src/agent.rs: a pure inspection of the
session state, taking no remote-call oracle at all. -/
def success (cfg : CuaReasonerConfig) (st : CuaState) : Except AgentError Bool :=
  if cfg.stop_on_message then .ok st.done_message.isSome else .ok false

-- ===================== Run controller (src/agent.rs) =====================

/-- The outcomes of the external calls `Agent::run_goal` can make during one
loop iteration, in program order.  `nowExpired` is the boolean value of
`Instant::now() >= d` at the top of the iteration; `thinkR` receives the
`last_error` argument the controller passes; `approveR` and `actR` receive
the action; `snapR` is the bare `computer.snapshot()` taken on an
action-less, empty-plan thought; `stepTimestamp` is
`Instant::now().duration_since(start).as_millis()` for the step log and
`exitElapsed` is `start.elapsed().as_millis()` if the run exits metrics
during this iteration. -/
structure IterOracle where
  nowExpired : Bool
  successR : Except AgentError Bool
  thinkR : Option AgentError → Except AgentError Thought
  approveR : Action → Except AgentError Approval
  actR : Action → Except AgentError ActionResult
  snapR : Except AgentError Snapshot
  writeStepR : Except AgentError Unit
  stepTimestamp : Nat
  exitElapsed : Nat

/-- The outcomes of the per-run external calls of `Agent::run_goal`:
the pre-loop `memory.write_run_start`, the initial `open_url`/`snapshot`
observation, one `IterOracle` per loop index, and the
`memory.write_run_end` performed by `finish`.  `SnapshotStore::save`
results are discarded by the controller (`let _ = ...`) and are not
modelled. -/
structure RunOracle where
  writeRunStart : Except AgentError Unit
  initSnapshot : Except AgentError Snapshot
  iter : Nat → IterOracle
  writeRunEnd : Except AgentError Unit

/-- Rust `thought.plan.trim().is_empty()`: true iff the plan has no
non-whitespace character.  Modelled over ASCII whitespace (the strings in
this development are ASCII; Rust additionally trims non-ASCII Unicode
whitespace). -/
def trimIsEmpty (s : String) : Bool :=
  s.toList.all Char.isWhitespace

/-- `Agent::finish` from src/agent.rs: assemble the report
(`error = err.or_else(|| Some(msg))`), persist it, return it. -/
def finish (run_id : String) (goal : Goal) (steps : List StepLog)
    (metrics : RunMetrics) (last_snapshot : Snapshot) (status : RunStatus)
    (msg : String) (err : Option String) (writeRunEnd : Except AgentError Unit) :
    Except AgentError RunReport :=
  match writeRunEnd with
  | .error e => .error e
  | .ok _ =>
      .ok { run_id := run_id, goal := goal, status := status, metrics := metrics,
            steps := steps, last_snapshot := some last_snapshot,
            error := match err with | some e => some e | none => some msg }

/-- The `for i in 0..max_steps` loop of `Agent::run_goal`, with `i` the
current index and `fuel` the remaining iterations (`i + fuel = max_steps`
at every call from `runGoal`).  Loop state: the accumulated step logs, the
remembered `last_error`, and the latest snapshot.  Exhausted fuel is the
post-loop "Step budget exceeded" exit.  The deadline exit passes the
never-updated `RunMetrics::default()`.  Note the two `?`-propagations that
leave the loop: `reasoner.success` / `reasoner.think` failures, policy
`approve` failures, `memory.write_step` failures, and the bare
`computer.snapshot()` inside the no-action fallback. -/
def runLoop (cfg : AgentConfig) (goal : Goal) (run_id : String) (o : RunOracle) :
    Nat → Nat → List StepLog → Option AgentError → Snapshot →
    Except AgentError RunReport
  | i, 0, steps, last_error, last_snapshot =>
      finish run_id goal steps
        { steps := cfg.max_steps, time_ms := (o.iter i).exitElapsed, success := false }
        last_snapshot .Timeout "Step budget exceeded"
        (last_error.map AgentError.display) o.writeRunEnd
  | i, fuel + 1, steps, last_error, last_snapshot =>
      if goal.timeout_ms.isSome && (o.iter i).nowExpired then
        finish run_id goal steps
          { steps := 0, time_ms := 0, success := false }
          last_snapshot .Timeout "Run budget exceeded" none o.writeRunEnd
      else
        match (o.iter i).successR with
        | .error e => .error e
        | .ok true =>
            finish run_id goal steps
              { steps := i, time_ms := (o.iter i).exitElapsed, success := true }
              last_snapshot .Success "Goal met" none o.writeRunEnd
        | .ok false =>
            match (o.iter i).thinkR last_error with
            | .error e => .error e
            | .ok thought =>
                let step_log : StepLog :=
                  { step := i, plan := thought.plan, action := thought.action,
                    approval := none, result_hint := "", snapshot_id := none,
                    error := none, timestamp_ms := (o.iter i).stepTimestamp }
                if thought.action.isNone && !trimIsEmpty thought.plan then
                  match (o.iter i).writeStepR with
                  | .error e => .error e
                  | .ok _ =>
                      runLoop cfg goal run_id o (i + 1) fuel
                        (steps ++ [{ step_log with result_hint := "message" }])
                        last_error last_snapshot
                else
                  match thought.action with
                  | some act =>
                      match (o.iter i).approveR act with
                      | .error e => .error e
                      | .ok approval =>
                          if !approval.granted then
                            match (o.iter i).writeStepR with
                            | .error e => .error e
                            | .ok _ =>
                                runLoop cfg goal run_id o (i + 1) fuel
                                  (steps ++ [{ step_log with
                                      approval := some approval,
                                      result_hint := "denied" }])
                                  (some (.Denied (approval.scope.getD .BrowserNavigate)))
                                  last_snapshot
                          else
                            match (o.iter i).actR act with
                            | .ok out =>
                                match (o.iter i).writeStepR with
                                | .error e => .error e
                                | .ok _ =>
                                    runLoop cfg goal run_id o (i + 1) fuel
                                      (steps ++ [{ step_log with
                                          approval := some approval,
                                          result_hint :=
                                            if out.changed then "changed" else "unchanged",
                                          snapshot_id := some out.snapshot.id }])
                                      none out.snapshot
                            | .error err =>
                                match (o.iter i).writeStepR with
                                | .error e => .error e
                                | .ok _ =>
                                    runLoop cfg goal run_id o (i + 1) fuel
                                      (steps ++ [{ step_log with
                                          approval := some approval,
                                          result_hint := "error",
                                          error := some err.display }])
                                      (some err) last_snapshot
                  | none =>
                      match (o.iter i).snapR with
                      | .error e => .error e
                      | .ok snap =>
                          match (o.iter i).writeStepR with
                          | .error e => .error e
                          | .ok _ =>
                              runLoop cfg goal run_id o (i + 1) fuel
                                (steps ++ [{ step_log with
                                    result_hint := "unchanged",
                                    snapshot_id := some snap.id }])
                                none snap

/-- `Agent::run_goal` from src/agent.rs: run-start persistence, initial
observation, then the bounded loop starting from empty state. -/
def runGoal (cfg : AgentConfig) (goal : Goal) (run_id : String)
    (o : RunOracle) : Except AgentError RunReport :=
  match o.writeRunStart with
  | .error e => .error e
  | .ok _ =>
      match o.initSnapshot with
      | .error e => .error e
      | .ok snap0 => runLoop cfg goal run_id o 0 cfg.max_steps [] none snap0

-- ===================== Concrete fixtures =====================

/-- A snapshot with an image payload, for concrete runs. -/
def snapA : Snapshot :=
  { id := "snap-0", url := some "https://example.com", title := none,
    image_base64 := some "aGVsbG8=", dom_summary := none, captured_at_ms := 0 }

/-- A snapshot with no image payload (the protocol violation input). -/
def snapNoImg : Snapshot :=
  { id := "snap-1", url := some "https://example.com", title := none,
    image_base64 := none, dom_summary := none, captured_at_ms := 0 }

/-- An uneventful loop iteration: deadline not reached, goal not met, the
reasoner produces an empty thought, everything external succeeds. -/
def idleIter : IterOracle :=
  { nowExpired := false, successR := .ok false,
    thinkR := fun _ => .ok { plan := "", action := none, rationale := none },
    approveR := fun _ => .ok { granted := true, scope := none, reason := none },
    actR := fun _ => .ok { snapshot := snapA, changed := true, message := none },
    snapR := .ok snapA, writeStepR := .ok (), stepTimestamp := 7, exitElapsed := 9 }

/-- A goal with no wall-clock budget. -/
def goalNT : Goal :=
  { task := "t", constraints := [], success_criteria := [], timeout_ms := none }

/-- A two-step configuration. -/
def cfg2 : AgentConfig := { max_steps := 2, step_timeout_ms := 1000, scopes := [] }

/-- A session mid-thread and idle (a previous response id is stored, no
screenshot owed). -/
def stThreadW : CuaState := { CuaState.init with previous := some "resp-1" }

/-- A session mid-thread and owing a screenshot for pending call c0. -/
def stAwaitW : CuaState :=
  { CuaState.init with previous := some "resp-1", pending_call_id := some "c0",
                       awaiting_screenshot := true }

/-- A session that has already recorded a terminal message. -/
def stDoneW : CuaState := { CuaState.init with done_message := some "done" }

/-- A service reply whose computer_call explicitly carries
requires_screenshot = false. -/
def jsonCC : Json :=
  .obj [("id", .str "r1"),
        ("output", .arr [.obj [("type", .str "computer_call"),
                               ("call_id", .str "c1"),
                               ("requires_screenshot", .bool false)]])]

/-- A well-formed reply whose output array has only unrecognized items and a
message item with no extractable text. -/
def jsonNoise : Json :=
  .obj [("id", .str "resp-9"),
        ("output", .arr [.obj [("type", .str "reasoning")],
                         .obj [("type", .str "message"), ("content", .arr [])]])]

-- ===================== Shared lemmas =====================

/-- Once recorded, the terminal message survives any later think call:
no branch of the embedded think ever clears done_message. -/
theorem think_done_message_mono (cfg : CuaReasonerConfig) (st : CuaState)
    (snapshot : Snapshot) (reply : Except String CuaOutput)
    (h : st.done_message.isSome = true) :
    ((think cfg st snapshot reply).2).done_message.isSome = true := by
  obtain ⟨prev, pcid, psc, aw, dm⟩ := st
  obtain ⟨sid, surl, stitle, simg, sdom, scap⟩ := snapshot
  rcases aw <;> rcases simg with _ | img <;> rcases pcid with _ | cid <;>
    rcases reply with tf | (text | ⟨call_id, act, rs, rid, sc⟩ | rid) <;>
    rcases hc : cfg.stop_on_message <;>
    simp_all [think]

-- ===================== Claims =====================

/-- Claim C9: the action-mapping table of CuaReasoner::map_cua_action —
click and double-click become Click at coordinates, move becomes Hover,
scroll becomes Scroll with no target, type becomes Type into the wildcard
CSS locator, keypress becomes Key, and wait, drag-path, screenshot and
unknown kinds produce no Action. -/
theorem map_cua_action_table :
    ∀ (x y dx dy ms : Int) (btn : Option String) (text key s : String)
      (pts : List (Int × Int)),
    map_cua_action (.Click x y btn) =
      some (.Click (.Coordinates (i64AsI32 x) (i64AsI32 y))) ∧
    map_cua_action (.DoubleClick x y) =
      some (.Click (.Coordinates (i64AsI32 x) (i64AsI32 y))) ∧
    map_cua_action (.Move x y) =
      some (.Hover (.Coordinates (i64AsI32 x) (i64AsI32 y))) ∧
    map_cua_action (.Scroll dx dy) =
      some (.Scroll none (i64AsI32 dx) (i64AsI32 dy)) ∧
    map_cua_action (.Type text) = some (.Type text (.Css "*")) ∧
    map_cua_action (.Keypress key) = some (.Key key) ∧
    map_cua_action (.DragPath pts) = none ∧
    map_cua_action (.WaitMs ms) = none ∧
    map_cua_action .Screenshot = none ∧
    map_cua_action (.Unknown s) = none := by
  intros
  exact ⟨rfl, rfl, rfl, rfl, rfl, rfl, rfl, rfl, rfl, rfl⟩

/-- Claim C8: CuaReasoner::success returns exactly
(stop_on_message AND a terminal message is recorded) — in particular false
unconditionally when stop_on_message is false — it consumes no remote
reply, and once a terminal message is recorded any later think call leaves
the session terminal, so every subsequent success call returns true. -/
theorem success_contract :
    ∀ (cfg : CuaReasonerConfig) (st : CuaState) (snapshot : Snapshot)
      (reply : Except String CuaOutput),
    success cfg st = .ok (cfg.stop_on_message && st.done_message.isSome) ∧
    (st.done_message.isSome = true →
      ((think cfg st snapshot reply).2).done_message.isSome = true ∧
      (cfg.stop_on_message = true →
        success cfg (think cfg st snapshot reply).2 = .ok true)) := by
  intro cfg st snapshot reply
  constructor
  · unfold success
    rcases h : cfg.stop_on_message <;> simp [h]
  · intro hdone
    have hmono := think_done_message_mono cfg st snapshot reply hdone
    refine ⟨hmono, fun hstop => ?_⟩
    unfold success
    simp [hstop, hmono]

/-- Closed instance of success_contract: a session that already recorded a
terminal message still reports the goal met after a further think call. -/
theorem success_contract_witness :
    ((think CuaReasonerConfig.init stDoneW snapA (.ok (.Message "m"))).2).done_message.isSome = true ∧
    success CuaReasonerConfig.init (think CuaReasonerConfig.init stDoneW snapA (.ok (.Message "m"))).2 = .ok true := by
  have h := (success_contract CuaReasonerConfig.init stDoneW snapA
    (.ok (.Message "m"))).2 rfl
  exact ⟨h.1, h.2 rfl⟩

/-- Claim C7: every failing think call — transport failure, missing image,
or missing call id while a screenshot is owed — yields a reasoner-kind
error and leaves the session state exactly as it was. -/
theorem think_error_no_mutation :
    ∀ (cfg : CuaReasonerConfig) (st : CuaState) (snapshot : Snapshot)
      (reply : Except String CuaOutput) (e : AgentError),
    (think cfg st snapshot reply).1 = .error e →
    (think cfg st snapshot reply).2 = st ∧ ∃ s, e = .Reasoner s := by
  intro cfg st snapshot reply e h
  obtain ⟨prev, pcid, psc, aw, dm⟩ := st
  obtain ⟨sid, surl, stitle, simg, sdom, scap⟩ := snapshot
  rcases aw <;> rcases simg with _ | img <;> rcases pcid with _ | cid <;>
    rcases reply with tf | (text | ⟨call_id, act, rs, rid, sc⟩ | rid) <;>
    first
      | exact Except.noConfusion h
      | (cases h; exact ⟨rfl, _, rfl⟩)

/-- Closed instance of think_error_no_mutation: a screenshot is owed but
the snapshot has no image; the call fails with a reasoner error and the
session is untouched. -/
theorem think_error_no_mutation_witness :
    (think CuaReasonerConfig.init stAwaitW snapNoImg (.ok (.Done "r2"))).2 = stAwaitW ∧
    ∃ s, AgentError.Reasoner "missing snapshot image" = .Reasoner s :=
  think_error_no_mutation CuaReasonerConfig.init stAwaitW snapNoImg
    (.ok (.Done "r2")) (.Reasoner "missing snapshot image") rfl

/-- Claim C3 (code bug): on a plain-message reply the previous-response
identifier is NOT cleared — the statement st.previous = st.previous.take()
writes the taken value straight back, leaving the thread open, despite the
adjacent source comment end thread on message.  Both message arms (idle
and awaiting-observation) retain resp-1 here. -/
theorem message_retains_previous :
    ((think CuaReasonerConfig.init stThreadW snapA (.ok (.Message "hi"))).2).previous
        = some "resp-1" ∧
    ((think CuaReasonerConfig.init stAwaitW snapA (.ok (.Message "hi"))).2).previous
        = some "resp-1" :=
  ⟨rfl, rfl⟩

/-- Claim C2 counterexample: a service reply whose computer_call carries
requires_screenshot = false (exactly what parse_output produces for
jsonCC) drives the session into pending_call_id = some c1 while
awaiting_screenshot = false, so the two fields are not equivalent. -/
theorem session_invariant_counterexample :
    parse_output jsonCC = .ok (.ComputerCall "c1" (.Unknown "unknown") false "r1" []) ∧
    ((think CuaReasonerConfig.init CuaState.init snapA
        (.ok (.ComputerCall "c1" (.Unknown "unknown") false "r1" []))).2).pending_call_id
      = some "c1" ∧
    ((think CuaReasonerConfig.init CuaState.init snapA
        (.ok (.ComputerCall "c1" (.Unknown "unknown") false "r1" []))).2).awaiting_screenshot
      = false :=
  ⟨rfl, rfl, rfl⟩

/-- The session invariant of claim C2: the awaiting-observation flag is set
exactly when a tool-call identifier is pending. -/
def sessionInv (st : CuaState) : Prop :=
  st.awaiting_screenshot = true ↔ st.pending_call_id.isSome = true

/-- Replies whose tool calls all demand a screenshot (requires_screenshot
defaults to true on the wire and is false only when sent explicitly). -/
def replyRequiresScreenshot : Except String CuaOutput → Prop
  | .ok (.ComputerCall _ _ rs _ _) => rs = true
  | _ => True

/-- Claim C2 (amended): the fresh session satisfies the invariant; the
direction awaiting-observation implies pending-call-id is preserved by
every think call; and the full two-way invariant is preserved whenever the
delivered reply does not carry requires_screenshot = false. -/
theorem session_invariant_preserved :
    sessionInv CuaState.init ∧
    ∀ (cfg : CuaReasonerConfig) (st : CuaState) (snapshot : Snapshot)
      (reply : Except String CuaOutput),
      ((st.awaiting_screenshot = true → st.pending_call_id.isSome = true) →
        (((think cfg st snapshot reply).2).awaiting_screenshot = true →
          ((think cfg st snapshot reply).2).pending_call_id.isSome = true)) ∧
      (sessionInv st → replyRequiresScreenshot reply →
        sessionInv (think cfg st snapshot reply).2) := by
  constructor
  · simp [sessionInv, CuaState.init]
  · intro cfg st snapshot reply
    obtain ⟨prev, pcid, psc, aw, dm⟩ := st
    obtain ⟨sid, surl, stitle, simg, sdom, scap⟩ := snapshot
    constructor
    · intro hfwd
      rcases aw <;> rcases simg with _ | img <;> rcases pcid with _ | cid <;>
        rcases reply with tf | (text | ⟨call_id, act, rs, rid, sc⟩ | rid) <;>
        simp_all [think]
    · intro hinv hreq
      unfold sessionInv at *
      unfold replyRequiresScreenshot at hreq
      rcases aw <;> rcases simg with _ | img <;> rcases pcid with _ | cid <;>
        rcases reply with tf | (text | ⟨call_id, act, rs, rid, sc⟩ | rid) <;>
        simp_all [think]

/-- Closed instance of session_invariant_preserved: one think call on the
fresh session with a screenshot-requiring tool call lands in a state where
both the flag and the pending id are set. -/
theorem session_invariant_preserved_witness :
    sessionInv (think CuaReasonerConfig.init CuaState.init snapA
      (.ok (.ComputerCall "c1" (.Unknown "unknown") true "r1" []))).2 :=
  ((session_invariant_preserved.2 CuaReasonerConfig.init CuaState.init snapA
      (.ok (.ComputerCall "c1" (.Unknown "unknown") true "r1" []))).2
    session_invariant_preserved.1 rfl)

/-- A run whose reasoner fails its very first goal-met check. -/
def oC1 : RunOracle :=
  { writeRunStart := .ok (), initSnapshot := .ok snapA,
    iter := fun _ => { idleIter with successR := .error (.Reasoner "boom") },
    writeRunEnd := .ok () }

/-- Claim C1 counterexample: when Reasoner::success fails inside the first
loop iteration, run_goal returns the bare reasoning error — no RunReport
and no recorded error step. -/
theorem run_goal_propagates_reasoner_error :
    runGoal cfg2 goalNT "run-c1" oC1 = .error (.Reasoner "boom") := rfl

/-- Claim C1 (amended): a Reasoner::success or Reasoner::think error in a
loop iteration that is not cut short by the deadline propagates out of the
loop unchanged — the iteration is not recorded and the run produces no
report. -/
theorem reasoner_error_propagates :
    ∀ (cfg : AgentConfig) (goal : Goal) (run_id : String) (o : RunOracle)
      (i fuel : Nat) (steps : List StepLog) (last_error : Option AgentError)
      (snap : Snapshot) (e : AgentError),
    (goal.timeout_ms.isSome && (o.iter i).nowExpired) = false →
    ((o.iter i).successR = .error e ∨
      ((o.iter i).successR = .ok false ∧ (o.iter i).thinkR last_error = .error e)) →
    runLoop cfg goal run_id o i (fuel + 1) steps last_error snap = .error e := by
  intro cfg goal run_id o i fuel steps last_error snap e hguard hcase
  rcases hcase with hsucc | ⟨hsucc, hthink⟩
  · simp only [runLoop, hguard, hsucc, Bool.false_eq_true, if_false]
  · simp only [runLoop, hguard, hsucc, hthink, Bool.false_eq_true, if_false]

/-- Closed instance of reasoner_error_propagates at the concrete run of the
counterexample oracle. -/
theorem reasoner_error_propagates_witness :
    runLoop cfg2 goalNT "run-c1" oC1 0 2 [] none snapA = .error (.Reasoner "boom") :=
  reasoner_error_propagates cfg2 goalNT "run-c1" oC1 0 1 [] none snapA
    (.Reasoner "boom") rfl (Or.inl rfl)

/-- Claim C5: if a deadline exists and has already passed when an iteration
begins, the iteration consults none of the per-step collaborators (the
result below is fixed whatever successR, thinkR, approveR, actR, snapR and
writeStepR return) and the run ends with status Timeout, message
Run budget exceeded, and the never-updated default metrics. -/
theorem deadline_precedence :
    ∀ (cfg : AgentConfig) (goal : Goal) (run_id : String) (o : RunOracle)
      (i fuel : Nat) (steps : List StepLog) (last_error : Option AgentError)
      (snap : Snapshot),
    goal.timeout_ms.isSome = true →
    (o.iter i).nowExpired = true →
    o.writeRunEnd = .ok () →
    runLoop cfg goal run_id o i (fuel + 1) steps last_error snap =
      .ok { run_id := run_id, goal := goal, status := .Timeout,
            metrics := { steps := 0, time_ms := 0, success := false },
            steps := steps, last_snapshot := some snap,
            error := some "Run budget exceeded" } := by
  intro cfg goal run_id o i fuel steps last_error snap hts hexp hwre
  simp only [runLoop, finish, hts, hexp, hwre, Bool.and_self, if_true]

/-- Closed instance of deadline_precedence: a goal with a 5 ms budget whose
deadline has passed before iteration 0. -/
theorem deadline_precedence_witness :
    runLoop cfg2 { goalNT with timeout_ms := some 5 } "run-c5"
      { writeRunStart := .ok (), initSnapshot := .ok snapA,
        iter := fun _ => { idleIter with nowExpired := true },
        writeRunEnd := .ok () } 0 2 [] none snapA =
      .ok { run_id := "run-c5", goal := { goalNT with timeout_ms := some 5 },
            status := .Timeout,
            metrics := { steps := 0, time_ms := 0, success := false },
            steps := [], last_snapshot := some snapA,
            error := some "Run budget exceeded" } :=
  deadline_precedence cfg2 { goalNT with timeout_ms := some 5 } "run-c5"
    { writeRunStart := .ok (), initSnapshot := .ok snapA,
      iter := fun _ => { idleIter with nowExpired := true },
      writeRunEnd := .ok () } 0 1 [] none snapA rfl rfl rfl

/-- Claim C6: a policy denial records a StepLog with result_hint denied
(and the approval attached), remembers Denied(scope) as the last error
handed to the next think call, and the loop continues into the next
iteration — the denied action is never executed and the run does not end
on this iteration. -/
theorem denied_step_continues :
    ∀ (cfg : AgentConfig) (goal : Goal) (run_id : String) (o : RunOracle)
      (i fuel : Nat) (steps : List StepLog) (last_error : Option AgentError)
      (snap : Snapshot) (thought : Thought) (act : Action) (approval : Approval),
    (goal.timeout_ms.isSome && (o.iter i).nowExpired) = false →
    (o.iter i).successR = .ok false →
    (o.iter i).thinkR last_error = .ok thought →
    thought.action = some act →
    (o.iter i).approveR act = .ok approval →
    approval.granted = false →
    (o.iter i).writeStepR = .ok () →
    runLoop cfg goal run_id o i (fuel + 1) steps last_error snap =
      runLoop cfg goal run_id o (i + 1) fuel
        (steps ++ [{ step := i, plan := thought.plan, action := some act,
                     approval := some approval, result_hint := "denied",
                     snapshot_id := none, error := none,
                     timestamp_ms := (o.iter i).stepTimestamp }])
        (some (.Denied (approval.scope.getD .BrowserNavigate))) snap := by
  intro cfg goal run_id o i fuel steps last_error snap thought act approval
    hguard hsucc hthink haction happrove hgrant hwrite
  simp only [runLoop, hguard, hsucc, hthink, haction, happrove, hgrant, hwrite,
    Option.isNone_some, Bool.false_and, Bool.false_eq_true, if_false,
    Bool.not_false, if_true]

/-- A run whose reasoner always asks for a click that policy denies. -/
def oC6 : RunOracle :=
  { writeRunStart := .ok (), initSnapshot := .ok snapA,
    iter := fun _ => { idleIter with
      thinkR := fun _ =>
        .ok { plan := "", action := some (.Click (.Coordinates 3 4)), rationale := none },
      approveR := fun _ =>
        .ok { granted := false, scope := some .Network, reason := some "no" } },
    writeRunEnd := .ok () }

/-- Closed instance of denied_step_continues at a concrete denied click. -/
theorem denied_step_continues_witness :
    runLoop cfg2 goalNT "run-c6" oC6 0 1 [] none snapA =
      runLoop cfg2 goalNT "run-c6" oC6 1 0
        [{ step := 0, plan := "", action := some (.Click (.Coordinates 3 4)),
           approval := some { granted := false, scope := some .Network, reason := some "no" },
           result_hint := "denied", snapshot_id := none, error := none,
           timestamp_ms := 7 }]
        (some (.Denied .Network)) snapA :=
  denied_step_continues cfg2 goalNT "run-c6" oC6 0 0 [] none snapA
    { plan := "", action := some (.Click (.Coordinates 3 4)), rationale := none }
    (.Click (.Coordinates 3 4))
    { granted := false, scope := some .Network, reason := some "no" }
    rfl rfl rfl rfl rfl rfl rfl

/-- Step accounting along the loop: with the invariant that the log length
equals the iteration index and that index plus remaining fuel equals
max_steps, an Ok report has at most max_steps logs; a Timeout report
either comes from step-budget exhaustion (metrics.steps equals the log
count, which is max_steps) or from the deadline exit (metrics.steps is the
never-updated 0 and the error text is Run budget exceeded). -/
theorem runLoop_step_accounting (cfg : AgentConfig) (goal : Goal) (run_id : String)
    (o : RunOracle) :
    ∀ (fuel i : Nat) (steps : List StepLog) (last_error : Option AgentError)
      (snap : Snapshot) (r : RunReport),
      steps.length = i → i + fuel = cfg.max_steps →
      runLoop cfg goal run_id o i fuel steps last_error snap = .ok r →
      r.steps.length ≤ cfg.max_steps ∧
      (r.status = .Timeout →
        (r.metrics.steps = r.steps.length ∧ r.steps.length = cfg.max_steps) ∨
        (r.metrics.steps = 0 ∧ r.error = some "Run budget exceeded")) := by
  intro fuel
  induction fuel with
  | zero =>
      intro i steps last_error snap r hlen hsum h
      simp only [runLoop, finish] at h
      split at h
      · exact Except.noConfusion h
      · cases h
        constructor
        · simp; omega
        · intro _
          exact Or.inl (by constructor <;> simp <;> omega)
  | succ fuel ih =>
      intro i steps last_error snap r hlen hsum h
      simp only [runLoop, finish] at h
      repeat' split at h
      all_goals try exact Except.noConfusion h
      all_goals try (cases h)
      all_goals try (exact ih _ _ _ _ _ (by simp [hlen]) (by omega) h)
      all_goals refine ⟨by simp; omega, ?_⟩
      all_goals intro hst
      all_goals first
        | exact RunStatus.noConfusion hst
        | exact Or.inr ⟨rfl, rfl⟩

/-- Claim C4 (amended): every report run_goal returns carries at most
max_steps step logs; on a step-budget Timeout, metrics.steps equals the
number of logged steps (both are max_steps); on a deadline Timeout,
metrics.steps retains its initial value 0, which matches the log count
only if the deadline fired before anything was logged. -/
theorem run_report_step_accounting :
    ∀ (cfg : AgentConfig) (goal : Goal) (run_id : String) (o : RunOracle)
      (r : RunReport),
      runGoal cfg goal run_id o = .ok r →
      r.steps.length ≤ cfg.max_steps ∧
      (r.status = .Timeout →
        (r.metrics.steps = r.steps.length ∧ r.steps.length = cfg.max_steps) ∨
        (r.metrics.steps = 0 ∧ r.error = some "Run budget exceeded")) := by
  intro cfg goal run_id o r h
  unfold runGoal at h
  repeat' split at h
  all_goals try exact Except.noConfusion h
  exact runLoop_step_accounting cfg goal run_id o cfg.max_steps 0 [] none _ r rfl
    (by omega) h

/-- An iteration whose reasoner produces a pure conversational turn. -/
def iterMsgNote : IterOracle :=
  { idleIter with
    thinkR := fun _ => .ok { plan := "note", action := none, rationale := none } }

/-- A run that records one message step and then hits its deadline. -/
def oC4 : RunOracle :=
  { writeRunStart := .ok (), initSnapshot := .ok snapA,
    iter := fun i => if i == 0 then iterMsgNote else { idleIter with nowExpired := true },
    writeRunEnd := .ok () }

/-- A goal with a 5 ms wall-clock budget. -/
def goalC4 : Goal := { goalNT with timeout_ms := some 5 }

/-- Claim C4 counterexample: a run that logs one message step and then
times out on the deadline returns a non-success report whose
metrics.steps is 0 while its step log has length 1. -/
theorem deadline_metrics_mismatch :
    (runGoal cfg2 goalC4 "run-c4" oC4).map
        (fun r => (r.status, r.metrics.steps, r.steps.length)) = .ok (.Timeout, 0, 1) ∧
    (0 : Nat) ≠ 1 := ⟨rfl, by decide⟩

/-- The report produced by the oC4 run. -/
def reportC4 : RunReport :=
  { run_id := "run-c4", goal := goalC4, status := .Timeout,
    metrics := { steps := 0, time_ms := 0, success := false },
    steps := [{ step := 0, plan := "note", action := none, approval := none,
                result_hint := "message", snapshot_id := none, error := none,
                timestamp_ms := 7 }],
    last_snapshot := some snapA, error := some "Run budget exceeded" }

/-- Closed instance of run_report_step_accounting at the oC4 run. -/
theorem run_report_step_accounting_witness :
    reportC4.steps.length ≤ cfg2.max_steps :=
  (run_report_step_accounting cfg2 goalC4 "run-c4" oC4 reportC4 rfl).1

/-- Output items the parse_output scan ignores: no type string, or a type
that is neither computer_call nor done and, when it is message, has no
extractable text. -/
def itemIsNoise (o : Json) : Bool :=
  match (o.get "type").bind Json.asStr with
  | none => true
  | some t =>
      !(t == "computer_call") && !(t == "done") &&
        (!(t == "message") || o.messageText.isNone)

/-- Scanning only ignorable items with no pending message falls through to
the Done fallback. -/
theorem parseLoop_noise (rid : String) :
    ∀ (outs : List Json), outs.all itemIsNoise = true →
      parseLoop rid outs none = .ok (.Done rid) := by
  intro outs
  induction outs with
  | nil => intro _; rfl
  | cons o rest ih =>
      intro h
      simp only [List.all_cons, Bool.and_eq_true] at h
      obtain ⟨ho, hrest⟩ := h
      rcases ht : (o.get "type").bind Json.asStr with _ | t <;>
        simp only [parseLoop, ht]
      · exact ih hrest
      · simp only [itemIsNoise, ht, Bool.and_eq_true, Bool.not_eq_true',
          Bool.or_eq_true] at ho
        obtain ⟨⟨hcc, hdone⟩, hmsg⟩ := ho
        simp only [hcc, Bool.false_eq_true, if_false]
        rcases hm : t == "message" with _ | _
        · simp only [hm, Bool.false_eq_true, if_false, hdone]
          exact ih hrest
        · simp only [hm, if_true]
          rcases hmsg with hmsg | hmsg
          · rw [hm] at hmsg; exact Bool.noConfusion hmsg
          · rw [Option.isNone_iff_eq_none] at hmsg
            rw [hmsg]
            exact ih hrest

/-- Claim C10: a well-formed reply (object carrying a string id) whose
output array holds no computer_call, no done, and no message with
extractable text parses as an explicit Done; delivering that Done to a
successful think call marks the session terminal with the generic message
done; a terminal session reports the goal met under stop_on_message; and
an iteration whose goal-met check returns true ends the run with status
Success. -/
theorem unrecognized_reply_is_done :
    ∀ (v : Json) (rid : String),
      (v.get "id").bind Json.asStr = some rid →
      (((v.get "output").bind Json.asArr).getD []).all itemIsNoise = true →
      parse_output v = .ok (.Done rid) ∧
      (∀ (cfg : CuaReasonerConfig) (st : CuaState) (snapshot : Snapshot),
        (think cfg st snapshot (.ok (.Done rid))).1.isOk = true →
        ((think cfg st snapshot (.ok (.Done rid))).2).done_message = some "done") ∧
      (∀ (cfg : CuaReasonerConfig) (st : CuaState),
        cfg.stop_on_message = true → st.done_message = some "done" →
        success cfg st = .ok true) ∧
      (∀ (cfg : AgentConfig) (goal : Goal) (run_id : String) (o : RunOracle)
        (i fuel : Nat) (steps : List StepLog) (last_error : Option AgentError)
        (snap : Snapshot),
        (goal.timeout_ms.isSome && (o.iter i).nowExpired) = false →
        (o.iter i).successR = .ok true → o.writeRunEnd = .ok () →
        runLoop cfg goal run_id o i (fuel + 1) steps last_error snap =
          .ok { run_id := run_id, goal := goal, status := .Success,
                metrics := { steps := i, time_ms := (o.iter i).exitElapsed,
                             success := true },
                steps := steps, last_snapshot := some snap,
                error := some "Goal met" }) := by
  intro v rid hid hnoise
  refine ⟨?_, ?_, ?_, ?_⟩
  · unfold parse_output
    rw [hid]
    exact parseLoop_noise rid _ hnoise
  · intro cfg st snapshot hok
    obtain ⟨prev, pcid, psc, aw, dm⟩ := st
    obtain ⟨sid, surl, stitle, simg, sdom, scap⟩ := snapshot
    rcases aw <;> rcases simg with _ | img <;> rcases pcid with _ | cid <;>
      simp_all [think, Except.isOk, Except.toBool]
  · intro cfg st hstop hdone
    unfold success
    simp [hstop, hdone]
  · intro cfg goal run_id o i fuel steps last_error snap hguard hsucc hwre
    simp only [runLoop, finish, hguard, hsucc, hwre, Bool.false_eq_true, if_false]

/-- Closed instance of unrecognized_reply_is_done at the jsonNoise reply:
its output array holds only a reasoning item and a message item with no
text, and it parses as Done resp-9. -/
theorem unrecognized_reply_is_done_witness :
    parse_output jsonNoise = .ok (.Done "resp-9") :=
  (unrecognized_reply_is_done jsonNoise "resp-9" rfl rfl).1

end Agentx
